import Mathlib

/-!
Verification of the AmbianceApp multi-track audio engine.

The repository exposes one engine contract with two native implementations
(AmbianceAudioEngineModule.java on Android, AmbianceAudioEngine.swift on iOS)
behind a TypeScript bridge (NativeAudioBridge.ts).  This file gives a shallow
embedding of the state and operations of the Android native module, of the
iOS timer tick (where its behaviour diverges from Android), and of the
TypeScript bridge layer, and proves properties about them.

Numeric values (float/double in the sources) are modelled as exact rationals;
track maps (Java HashMap / Swift dictionary) are modelled as functions from
track id to an optional track record.  The Java module keeps two maps keyed
identically (players, trackConfigs) that are always populated together; they
are merged into a single Track record here.  Playback position of a
MediaPlayer is modelled explicitly: it advances while the player is playing
(advancePlayback), is retained by pause, and is reset by stop+prepare.
-/

namespace Ambiance

/-- Clamp a rational into an interval, as Math.max(lo, Math.min(hi, x)). -/
def clamp (lo hi x : ℚ) : ℚ := max lo (min hi x)

/-- Combined state of one Android track: the TrackConfig fields (name,
audioFile, volume, pan, isPlaying) plus the MediaPlayer state (its currently
applied left/right channel volumes, whether it is playing, and its playback
position).  Field defaults are the values at creation in addTrack: a fresh
TrackConfig has volume 0.5 and pan 0.0, and a fresh prepared MediaPlayer is
not playing, at position 0, with channel volumes 1.0. -/
structure Track where
  name : String
  audioFile : String
  volume : ℚ := 1/2
  pan : ℚ := 0
  isPlaying : Bool := false
  playerPlaying : Bool := false
  leftGain : ℚ := 1
  rightGain : ℚ := 1
  position : ℚ := 0
  deriving DecidableEq

/-- TimerConfig of the Android module: durations stored in milliseconds. -/
structure TimerConfig where
  duration : ℚ
  fadeOut : Bool
  fadeOutDuration : ℚ
  deriving DecidableEq

/-- State of the Android native module. -/
structure EngineState where
  isInitialized : Bool := false
  isPlaying : Bool := false
  masterVolume : ℚ := 1
  tracks : String → Option Track := fun _ => none
  timer : Option TimerConfig := none
  timerStartTime : ℚ := 0

/-- Error codes used by the promise rejections of the native module and by
the thrown errors of the TypeScript bridge. -/
inductive EngineError where
  | engineNotInitialized
  | trackNotFound
  | invalidParameter
  deriving DecidableEq

/-- Point update of the track map (HashMap.put). -/
def updateTrack (f : String → Option Track) (id : String) (t : Track) :
    String → Option Track :=
  fun j => if j = id then some t else f j

/-- The fresh state of the module before initialize() is called. -/
def initialState : EngineState := {}

/-- Android initialize: requests audio focus and sets isInitialized. -/
def initEngine (s : EngineState) : EngineState :=
  { s with isInitialized := true }

/-- The Track created by Android addTrack: a TrackConfig constructed as
new TrackConfig(trackId, audioFile, audioFile) together with a freshly
prepared looping MediaPlayer. -/
def newTrack (file : String) : Track :=
  { name := file, audioFile := file }

/-- Android addTrack: rejects ENGINE_NOT_INITIALIZED when not initialized;
otherwise loads the asset, prepares a looping MediaPlayer and puts it into
both maps (no duplicate-id check: an existing entry is overwritten). -/
def addTrack (s : EngineState) (id file : String) : Except EngineError EngineState :=
  if s.isInitialized then
    .ok { s with tracks := updateTrack s.tracks id (newTrack file) }
  else
    .error .engineNotInitialized

/-- The track produced by Android setVolume on an existing track: the
clamped volume cv is stored and cv * masterVolume is applied to both
channels, whatever the stored pan is. -/
def volumeAppliedTrack (t : Track) (cv m : ℚ) : Track :=
  { t with volume := cv, leftGain := cv * m, rightGain := cv * m }

/-- Android setVolume: rejects TRACK_NOT_FOUND when the id is absent;
otherwise clamps the volume into [0,1], applies clampedVolume * masterVolume
to both channels of the player, and stores the clamped volume in the config.
The stored pan plays no part in the applied channel volumes. -/
def androidSetVolume (s : EngineState) (id : String) (v : ℚ) :
    Except EngineError EngineState :=
  match s.tracks id with
  | none => .error .trackNotFound
  | some t =>
    .ok { s with tracks := updateTrack s.tracks id (volumeAppliedTrack t (clamp 0 1 v) s.masterVolume) }

/-- The pan law of Android setPanning: for pan < 0 the left channel keeps the
base volume and the right channel is attenuated by (1 + pan); for pan >= 0
the right channel keeps the base volume and the left is attenuated by
(1 - pan). -/
def panGains (base pan : ℚ) : ℚ × ℚ :=
  if pan < 0 then (base, base * (1 + pan)) else (base * (1 - pan), base)

/-- The track produced by Android setPanning on an existing track: the
clamped pan cp is stored and the channel volumes are recomputed by the pan
law from baseVolume = config.volume * masterVolume. -/
def panAppliedTrack (t : Track) (cp m : ℚ) : Track :=
  { t with pan := cp, leftGain := (panGains (t.volume * m) cp).1, rightGain := (panGains (t.volume * m) cp).2 }

/-- Android setPanning: rejects TRACK_NOT_FOUND when the id is absent;
otherwise clamps the pan into [-1,1], recomputes both channel volumes from
baseVolume = config.volume * masterVolume by the pan law, applies them, and
stores the clamped pan. -/
def androidSetPanning (s : EngineState) (id : String) (p : ℚ) :
    Except EngineError EngineState :=
  match s.tracks id with
  | none => .error .trackNotFound
  | some t =>
    .ok { s with tracks := updateTrack s.tracks id (panAppliedTrack t (clamp (-1) 1 p) s.masterVolume) }

/-- Per-track effect of Android play: a track is started exactly when its
configured volume is positive and its player is not already playing; a
started player resumes from its current position and the config isPlaying
flag is set.  All other tracks are left untouched. -/
def startTrack (t : Track) : Track :=
  if 0 < t.volume ∧ t.playerPlaying = false then
    { t with playerPlaying := true, isPlaying := true }
  else t

/-- Android play: rejects ENGINE_NOT_INITIALIZED when not initialized;
otherwise starts every track with volume > 0 whose player is not already
playing and sets the module-level isPlaying flag. -/
def androidPlay (s : EngineState) : Except EngineError EngineState :=
  if s.isInitialized then
    .ok { s with tracks := fun j => (s.tracks j).map startTrack
                 isPlaying := true }
  else
    .error .engineNotInitialized

/-- Per-track effect of Android pause: a playing player is paused in place
(position retained) and its config flag cleared; other tracks untouched. -/
def pauseTrack (t : Track) : Track :=
  if t.playerPlaying then { t with playerPlaying := false, isPlaying := false }
  else t

/-- Android pause: pauses every playing player and clears the module flag. -/
def androidPause (s : EngineState) : EngineState :=
  { s with tracks := fun j => (s.tracks j).map pauseTrack
           isPlaying := false }

/-- Per-track effect of Android stop: a playing player is stopped and
re-prepared, which resets its position to the start; a player that is not
playing (for instance paused mid-loop) is left at its current position.
The config isPlaying flag is cleared unconditionally. -/
def stopTrack (t : Track) : Track :=
  let t1 := if t.playerPlaying
    then { t with playerPlaying := false, position := 0 }
    else t
  { t1 with isPlaying := false }

/-- Android cancelTimer: removes the pending tick callback and clears the
timer configuration and start time. -/
def cancelTimer (s : EngineState) : EngineState :=
  { s with timer := none, timerStartTime := 0 }

/-- Android stop: applies stopTrack to every track, cancels any timer and
clears the module-level isPlaying flag. -/
def androidStop (s : EngineState) : EngineState :=
  let s1 := { s with tracks := fun j => (s.tracks j).map stopTrack }
  let s2 := cancelTimer s1
  { s2 with isPlaying := false }

/-- Android setTimer: cancels any existing timer, converts the durations
from minutes to milliseconds, records the current wall-clock time and arms
the periodic tick.  The supplied fadeOutDuration is stored as given; no
comparison with the total duration is made.  The Java code casts the
millisecond values to long; the conversion is exact for the rational
durations considered here. -/
def androidSetTimer (s : EngineState) (duration : ℚ) (fadeOut : Bool)
    (fadeOutDuration : ℚ) (now : ℚ) : EngineState :=
  let s1 := cancelTimer s
  { s1 with
    timer := some { duration := duration * 60 * 1000
                    fadeOut := fadeOut
                    fadeOutDuration := fadeOutDuration * 60 * 1000 }
    timerStartTime := now }

/-- Per-track effect of the Android fade tick: a track whose config flag
says it is playing gets fadeVolume = config.volume * targetVolume *
masterVolume applied to both channels; its stored volume is not touched. -/
def fadeTrack (master targetVolume : ℚ) (t : Track) : Track :=
  if t.isPlaying then
    { t with leftGain := t.volume * targetVolume * master
             rightGain := t.volume * targetVolume * master }
  else t

/-- Android handleTimerExpired: cancels the timer and then invokes stop
(which cancels it again, a no-op the second time). -/
def handleTimerExpired (s : EngineState) : EngineState :=
  androidStop (cancelTimer s)

/-- Android handleTimerTick: computes elapsed and remaining time from the
absolute start timestamp; on expiry stops everything; inside the fade window
computes fadeProgress = 1 - remaining/fadeOutDuration and targetVolume =
1 - fadeProgress and applies the faded gain to every track whose config
flag says it is playing. -/
def handleTimerTick (s : EngineState) (now : ℚ) : EngineState :=
  match s.timer with
  | none => s
  | some tc =>
    let elapsed := now - s.timerStartTime
    let remaining := tc.duration - elapsed
    if remaining ≤ 0 then
      handleTimerExpired s
    else if tc.fadeOut ∧ remaining ≤ tc.fadeOutDuration then
      let fadeProgress : ℚ := 1 - remaining / tc.fadeOutDuration
      let targetVolume : ℚ := 1 - fadeProgress
      { s with tracks := fun j => (s.tracks j).map (fadeTrack s.masterVolume targetVolume) }
    else s

/-- Physical playback: while a MediaPlayer is playing its position advances
with real time.  This is the (implicit) behaviour of the platform player
that stop resets and pause retains. -/
def advancePlayback (s : EngineState) (dt : ℚ) : EngineState :=
  { s with tracks := fun j => (s.tracks j).map fun t =>
      if t.playerPlaying then { t with position := t.position + dt } else t }

/-! The iOS native module (AmbianceAudioEngine.swift).  Its fade tick
behaves differently from the Android one, so the relevant part of its state
is embedded separately: each track keeps the AVAudioPlayerNode volume
(written by setVolume and overwritten by the fade tick) next to the
TrackConfig volume (written by setVolume only). -/

/-- One iOS track: the player node's current volume and pan, the TrackConfig
copy of both, and the config isPlaying flag.  A fresh AVAudioPlayerNode has
volume 1 and pan 0; a fresh TrackConfig has volume 0.5 and pan 0. -/
structure IOSTrack where
  playerVolume : ℚ := 1
  playerPan : ℚ := 0
  configVolume : ℚ := 1/2
  configPan : ℚ := 0
  isPlaying : Bool := false
  deriving DecidableEq

/-- State of the iOS native module: timer durations are stored in seconds. -/
structure IOSState where
  isInitialized : Bool := false
  isPlaying : Bool := false
  masterVolume : ℚ := 1
  tracks : String → Option IOSTrack := fun _ => none
  timer : Option TimerConfig := none
  timerStartTime : ℚ := 0

/-- iOS setVolume: clamps into [0,1], writes the player node volume and the
TrackConfig volume.  The iOS module never multiplies by masterVolume. -/
def iosSetVolume (s : IOSState) (id : String) (v : ℚ) :
    Except EngineError IOSState :=
  match s.tracks id with
  | none => .error .trackNotFound
  | some t =>
    let cv := clamp 0 1 v
    let t1 := { t with playerVolume := cv, configVolume := cv }
    .ok { s with tracks := fun j => if j = id then some t1 else s.tracks j }

/-- iOS setTimer: cancels any existing timer, converts minutes to seconds
(no clamp of fadeOutDuration against duration), records the start date and
schedules the one-second tick. -/
def iosSetTimer (s : IOSState) (duration : ℚ) (fadeOut : Bool)
    (fadeOutDuration : ℚ) (now : ℚ) : IOSState :=
  { s with
    timer := some { duration := duration * 60
                    fadeOut := fadeOut
                    fadeOutDuration := fadeOutDuration * 60 }
    timerStartTime := now }

/-- iOS stop: stops every player node (volumes are retained), clears every
config isPlaying flag, stops the engine and cancels the timer. -/
def iosStop (s : IOSState) : IOSState :=
  { s with tracks := fun j => (s.tracks j).map fun t => { t with isPlaying := false }
           timer := none
           timerStartTime := 0
           isPlaying := false }

/-- iOS handleTimerTick: on expiry cancels the timer and stops; inside the
fade window it computes targetVolume = 1 - (1 - remaining/fadeOutDuration)
and multiplies EVERY player node's current volume by it — the new gain is
player.volume * targetVolume, compounding across ticks, rather than being
recomputed from the stored config volume. -/
def iosHandleTimerTick (s : IOSState) (now : ℚ) : IOSState :=
  match s.timer with
  | none => s
  | some tc =>
    let elapsed := now - s.timerStartTime
    let remaining := tc.duration - elapsed
    if remaining ≤ 0 then
      iosStop { s with timer := none, timerStartTime := 0 }
    else if tc.fadeOut ∧ remaining ≤ tc.fadeOutDuration then
      let fadeProgress : ℚ := 1 - remaining / tc.fadeOutDuration
      let targetVolume : ℚ := 1 - fadeProgress
      { s with tracks := fun j => (s.tracks j).map fun t =>
          { t with playerVolume := t.playerVolume * targetVolume } }
    else s

/-! The TypeScript bridge (NativeAudioBridge.ts), layered over the Android
native module.  The bridge keeps its own isInitialized flag.  Bridge methods
model the promise of the TS async function: Except.error is a thrown
validation error (rejected promise), Except.ok carries the new state and the
boolean the promise resolves to. -/

/-- State of the TypeScript bridge plus the Android native module under it. -/
structure BridgeState where
  isInitialized : Bool := false
  native : EngineState := {}

/-- Bridge addTrack: validateInitialized throws ENGINE_NOT_INITIALIZED;
then the native addTrack is awaited inside try/catch, a native rejection
being converted into a resolved false. -/
def bridgeAddTrack (b : BridgeState) (id file : String) :
    Except EngineError (BridgeState × Bool) :=
  if b.isInitialized = false then .error .engineNotInitialized
  else
    match addTrack b.native id file with
    | .ok s => .ok ({ b with native := s }, true)
    | .error _ => .ok (b, false)

/-- Bridge setVolume: validateInitialized and validateVolume throw (the
latter rejects any volume outside [0,1] with INVALID_PARAMETER instead of
clamping); then the native setVolume is awaited inside try/catch, a native
rejection being converted into a resolved false. -/
def bridgeSetVolume (b : BridgeState) (id : String) (v : ℚ) :
    Except EngineError (BridgeState × Bool) :=
  if b.isInitialized = false then .error .engineNotInitialized
  else if v < 0 ∨ 1 < v then .error .invalidParameter
  else
    match androidSetVolume b.native id v with
    | .ok s => .ok ({ b with native := s }, true)
    | .error _ => .ok (b, false)

/-- Bridge setPanning: like bridgeSetVolume with validatePan on [-1,1]. -/
def bridgeSetPanning (b : BridgeState) (id : String) (p : ℚ) :
    Except EngineError (BridgeState × Bool) :=
  if b.isInitialized = false then .error .engineNotInitialized
  else if p < -1 ∨ 1 < p then .error .invalidParameter
  else
    match androidSetPanning b.native id p with
    | .ok s => .ok ({ b with native := s }, true)
    | .error _ => .ok (b, false)

/-- Bridge removeTrack: neither native module exposes a removeTrack method,
so the bridge falls back to setVolume(trackId, 0); any error thrown by that
call is caught and turned into a resolved false.  No track is ever removed
from the native map and no resource is released on this path. -/
def bridgeRemoveTrack (b : BridgeState) (id : String) : BridgeState × Bool :=
  match bridgeSetVolume b id 0 with
  | .ok r => r
  | .error _ => (b, false)

/-- Bridge getTracks: neither native module exposes a getTracks method, so
the bridge always resolves with the empty list. -/
def bridgeGetTracks (_b : BridgeState) : List String := []

/-- Bridge setMasterVolume: validateInitialized and validateVolume throw;
neither native module exposes a setMasterVolume method, so the bridge then
resolves true without forwarding anything to the native layer. -/
def bridgeSetMasterVolume (b : BridgeState) (v : ℚ) :
    Except EngineError (BridgeState × Bool) :=
  if b.isInitialized = false then .error .engineNotInitialized
  else if v < 0 ∨ 1 < v then .error .invalidParameter
  else .ok (b, true)

/-- One track record of a scene snapshot, as consumed by loadScene. -/
structure SceneTrack where
  id : String
  file : String
  volume : ℚ
  pan : ℚ
  deriving DecidableEq

/-- The per-snapshot-track loop body of loadSceneFromObject: addTrack, and
when it resolves true, setVolume then setPanning with the stored values.  A
thrown error aborts the whole load (caught by the surrounding try, which
returns false while keeping the mutations already made); a resolved false
from addTrack skips the volume/pan application for that track only. -/
def loadSceneLoop : BridgeState → List SceneTrack → BridgeState × Bool
  | b, [] => (b, true)
  | b, tr :: rest =>
    match bridgeAddTrack b tr.id tr.file with
    | .error _ => (b, false)
    | .ok (b1, success) =>
      if success then
        match bridgeSetVolume b1 tr.id tr.volume with
        | .error _ => (b1, false)
        | .ok (b2, _) =>
          match bridgeSetPanning b2 tr.id tr.pan with
          | .error _ => (b2, false)
          | .ok (b3, _) => loadSceneLoop b3 rest
      else loadSceneLoop b1 rest

/-- Bridge loadSceneFromObject: first iterates over getTracks() calling
removeTrack on each — since bridgeGetTracks is always empty this clearing
loop removes nothing — then runs the per-track add/volume/pan loop and
resolves true when no error was thrown. -/
def loadSceneFromObject (b : BridgeState) (scene : List SceneTrack) :
    BridgeState × Bool :=
  loadSceneLoop b scene

/-- The operations that mutate the Android native module state, used to
state engine-wide invariants.  Promise rejections leave the state unchanged. -/
inductive Op where
  | opInitialize
  | opAddTrack (id file : String)
  | opSetVolume (id : String) (v : ℚ)
  | opSetPanning (id : String) (p : ℚ)
  | opPlay
  | opPause
  | opStop
  | opSetTimer (d : ℚ) (f : Bool) (fd : ℚ) (now : ℚ)
  | opTick (now : ℚ)
  | opAdvance (dt : ℚ)

/-- State transition of one Android operation (rejections keep the state). -/
def applyOp (o : Op) (s : EngineState) : EngineState :=
  match o with
  | .opInitialize => initEngine s
  | .opAddTrack id file => match addTrack s id file with | .ok s1 => s1 | .error _ => s
  | .opSetVolume id v => match androidSetVolume s id v with | .ok s1 => s1 | .error _ => s
  | .opSetPanning id p => match androidSetPanning s id p with | .ok s1 => s1 | .error _ => s
  | .opPlay => match androidPlay s with | .ok s1 => s1 | .error _ => s
  | .opPause => androidPause s
  | .opStop => androidStop s
  | .opSetTimer d f fd now => androidSetTimer s d f fd now
  | .opTick now => handleTimerTick s now
  | .opAdvance dt => advancePlayback s dt

/-- A track whose stored volume and pan are inside their domains. -/
def trackInRange (t : Track) : Prop :=
  0 ≤ t.volume ∧ t.volume ≤ 1 ∧ -1 ≤ t.pan ∧ t.pan ≤ 1

/-- Every stored track of the state is inside its domain. -/
def stateInRange (s : EngineState) : Prop :=
  ∀ id t, s.tracks id = some t → trackInRange t

/-- The track state produced for one snapshot entry by the loadScene loop:
addTrack creates a fresh track, setVolume stores the clamped snapshot volume,
setPanning stores the clamped snapshot pan and recomputes the gains. -/
def sceneTrackResult (file : String) (v p m : ℚ) : Track :=
  panAppliedTrack (volumeAppliedTrack (newTrack file) (clamp 0 1 v) m) (clamp (-1) 1 p) m

/-- Cumulative effect of the loadScene loop on the native track map. -/
def loadFold (m : ℚ) (f : String → Option Track) : List SceneTrack → (String → Option Track)
  | [] => f
  | tr :: rest => loadFold m (updateTrack f tr.id (sceneTrackResult tr.file tr.volume tr.pan m)) rest

/-- A track that is currently playing at volume 1/2, as produced by
addTrack followed by play on an initialized engine.  Used as concrete input
in several witnesses and counterexamples below. -/
def playingTrack : Track :=
  { name := "rain.ogg", audioFile := "rain.ogg", volume := 1/2, pan := 0,
    isPlaying := true, playerPlaying := true, leftGain := 1/2, rightGain := 1/2, position := 0 }

/-- An initialized, playing Android engine with the single track "a". -/
def playingState : EngineState :=
  { isInitialized := true, isPlaying := true, masterVolume := 1,
    tracks := fun j => if j = "a" then some playingTrack else none }

/-- The engine state reached by initialize, addTrack "a", play, and then
setVolume "a" 0 while "a" is playing: the track keeps playing at zero gain
with its config isPlaying flag still set. -/
def playedMutedState : EngineState :=
  applyOp (.opSetVolume "a" 0)
    (applyOp .opPlay (applyOp (.opAddTrack "a" "rain.ogg") (applyOp .opInitialize initialState)))

/-- The engine state reached by initialize, addTrack "a", play, five time
units of playback, and pause: the track is paused mid-loop at position 5. -/
def pausedMidLoopState : EngineState :=
  applyOp .opPause
    (applyOp (.opAdvance 5)
      (applyOp .opPlay (applyOp (.opAddTrack "a" "rain.ogg") (applyOp .opInitialize initialState))))

/-- An iOS engine playing the single track "a" at volume 1/2 (player node
volume and config volume both 1/2, as left by iosSetVolume). -/
def iosPlayingState : IOSState :=
  { isInitialized := true, isPlaying := true, masterVolume := 1,
    tracks := fun j => if j = "a" then
      some { playerVolume := 1/2, playerPan := 0, configVolume := 1/2, configPan := 0, isPlaying := true }
      else none }

/-- An initialized bridge over an initialized Android engine that already
holds the playing track "old". -/
def bridgeWithOldTrack : BridgeState :=
  { isInitialized := true,
    native := { isInitialized := true, isPlaying := true, masterVolume := 1,
                tracks := fun j => if j = "old" then some playingTrack else none } }

/-- An initialized bridge over the playing single-track engine. -/
def bridgePlaying : BridgeState :=
  { isInitialized := true, native := playingState }

/-- The one-track scene snapshot used in the loadScene counterexample. -/
def sceneNew : List SceneTrack :=
  [{ id := "new", file := "ocean.ogg", volume := 3/4, pan := -1/2 }]

/-- A playing track panned fully left, as left by setPanning(-1): the pan
law put gain 1/2 on the left channel and 0 on the right. -/
def pannedTrack : Track :=
  { name := "rain.ogg", audioFile := "rain.ogg", volume := 1/2, pan := -1,
    isPlaying := true, playerPlaying := true, leftGain := 1/2, rightGain := 0, position := 0 }

/-- An initialized, playing Android engine whose track "a" is panned left. -/
def pannedState : EngineState :=
  { isInitialized := true, isPlaying := true, masterVolume := 1,
    tracks := fun j => if j = "a" then some pannedTrack else none }

/-! Helper lemmas. -/

theorem clamp_lower (lo hi x : ℚ) : lo ≤ clamp lo hi x :=
  le_max_left _ _

theorem clamp_upper {lo hi : ℚ} (x : ℚ) (h : lo ≤ hi) : clamp lo hi x ≤ hi :=
  max_le h (min_le_left _ _)

theorem clamp_eq_self {lo hi x : ℚ} (h1 : lo ≤ x) (h2 : x ≤ hi) : clamp lo hi x = x := by
  unfold clamp
  rw [min_eq_right h2, max_eq_right h1]

theorem updateTrack_self (f : String → Option Track) (id : String) (t : Track) :
    updateTrack f id t id = some t := by
  simp [updateTrack]

theorem updateTrack_ne (f : String → Option Track) {j id : String} (t : Track) (h : j ≠ id) :
    updateTrack f id t j = f j := by
  simp [updateTrack, h]

theorem updateTrack_collapse (f : String → Option Track) (id : String) (a b : Track) :
    updateTrack (updateTrack f id a) id b = updateTrack f id b := by
  funext j
  by_cases h : j = id <;> simp [updateTrack, h]

/-- Inside the fade window, the Android tick recomputes each playing
track's gains from the stored volume: volume * (remaining/fadeOutDuration)
* masterVolume on both channels; the stored volume is left unchanged. -/
theorem android_fade_window (s : EngineState) (now : ℚ) (tc : TimerConfig) (id : String) (t : Track)
    (htimer : s.timer = some tc) (hf : tc.fadeOut = true)
    (hrem : 0 < tc.duration - (now - s.timerStartTime))
    (hwin : tc.duration - (now - s.timerStartTime) ≤ tc.fadeOutDuration)
    (ht : s.tracks id = some t) (hp : t.isPlaying = true) :
    (handleTimerTick s now).tracks id =
      some { t with
        leftGain := t.volume * ((tc.duration - (now - s.timerStartTime)) / tc.fadeOutDuration) * s.masterVolume,
        rightGain := t.volume * ((tc.duration - (now - s.timerStartTime)) / tc.fadeOutDuration) * s.masterVolume } := by
  have hx : (1 : ℚ) - (1 - (tc.duration - (now - s.timerStartTime)) / tc.fadeOutDuration) =
      (tc.duration - (now - s.timerStartTime)) / tc.fadeOutDuration := by ring
  simp only [handleTimerTick, htimer, not_le.mpr hrem, if_false, hf, true_and,
    if_pos hwin, hx, ht, Option.map_some', fadeTrack, hp, if_true]

/-- Inside the fade window, the iOS tick multiplies every player node's
current volume by remaining/fadeOutDuration; the stored config volume of
the track is left unchanged. -/
theorem ios_fade_window (si : IOSState) (inow : ℚ) (tci : TimerConfig) (idi : String) (ti : IOSTrack)
    (hitimer : si.timer = some tci) (hif : tci.fadeOut = true)
    (hirem : 0 < tci.duration - (inow - si.timerStartTime))
    (hiwin : tci.duration - (inow - si.timerStartTime) ≤ tci.fadeOutDuration)
    (hti : si.tracks idi = some ti) :
    (iosHandleTimerTick si inow).tracks idi =
      some { ti with playerVolume := ti.playerVolume * ((tci.duration - (inow - si.timerStartTime)) / tci.fadeOutDuration) } := by
  have hx : (1 : ℚ) - (1 - (tci.duration - (inow - si.timerStartTime)) / tci.fadeOutDuration) =
      (tci.duration - (inow - si.timerStartTime)) / tci.fadeOutDuration := by ring
  simp only [iosHandleTimerTick, hitimer, not_le.mpr hirem, if_false, hif, true_and,
    if_pos hiwin, hx, hti, Option.map_some']

theorem stopTrack_idem (t : Track) : stopTrack (stopTrack t) = stopTrack t := by
  unfold stopTrack
  by_cases h : t.playerPlaying <;> simp [h]

theorem androidStop_idem (s : EngineState) : androidStop (androidStop s) = androidStop s := by
  unfold androidStop cancelTimer
  simp only []
  congr 1
  funext j
  cases h : s.tracks j <;> simp [stopTrack_idem]

theorem trackInRange_startTrack {t : Track} (h : trackInRange t) : trackInRange (startTrack t) := by
  unfold startTrack
  split <;> simpa [trackInRange] using h

theorem trackInRange_pauseTrack {t : Track} (h : trackInRange t) : trackInRange (pauseTrack t) := by
  unfold pauseTrack
  split <;> simpa [trackInRange] using h

theorem trackInRange_stopTrack {t : Track} (h : trackInRange t) : trackInRange (stopTrack t) := by
  unfold stopTrack
  split <;> simpa [trackInRange] using h

theorem trackInRange_fadeTrack {t : Track} (m tv : ℚ) (h : trackInRange t) :
    trackInRange (fadeTrack m tv t) := by
  unfold fadeTrack
  split <;> simpa [trackInRange] using h

theorem trackInRange_newTrack (file : String) : trackInRange (newTrack file) := by
  norm_num [trackInRange, newTrack]

theorem trackInRange_volumeApplied {t : Track} (v m : ℚ) (h : trackInRange t) :
    trackInRange (volumeAppliedTrack t (clamp 0 1 v) m) := by
  refine ⟨clamp_lower 0 1 v, clamp_upper v (by norm_num), ?_, ?_⟩
  · exact h.2.2.1
  · exact h.2.2.2

theorem trackInRange_panApplied {t : Track} (p m : ℚ) (h : trackInRange t) :
    trackInRange (panAppliedTrack t (clamp (-1) 1 p) m) := by
  refine ⟨h.1, h.2.1, clamp_lower (-1) 1 p, clamp_upper p (by norm_num)⟩

theorem stateInRange_mapTracks (s : EngineState) (s1 : EngineState) (g : Track → Track)
    (hg : ∀ t, trackInRange t → trackInRange (g t))
    (htr : ∀ j, s1.tracks j = (s.tracks j).map g)
    (h : stateInRange s) : stateInRange s1 := by
  intro j u hu
  rw [htr j] at hu
  cases hj : s.tracks j with
  | none => rw [hj] at hu; simp at hu
  | some w =>
    rw [hj] at hu
    simp only [Option.map_some'] at hu
    cases hu
    exact hg w (h j w hj)

theorem stateInRange_update (s : EngineState) (s1 : EngineState) (id : String) (u : Track)
    (hu : trackInRange u)
    (htr : s1.tracks = updateTrack s.tracks id u)
    (h : stateInRange s) : stateInRange s1 := by
  intro j w hw
  rw [htr] at hw
  by_cases hj : j = id
  · rw [hj, updateTrack_self] at hw
    cases hw
    exact hu
  · rw [updateTrack_ne _ _ hj] at hw
    exact h j w hw

/-- C6: for every clamped pan p and base gain in [0,1], the pan law of
setPanning gives leftGain = base and rightGain = base * (1 + p) when p < 0,
leftGain = base * (1 - p) and rightGain = base when p >= 0; pan -1 yields
(base, 0), pan 1 yields (0, base), pan 0 yields (base, base), and both
output gains always lie in [0,1]. -/
theorem pan_law_contract (base p : ℚ) (hb0 : 0 ≤ base) (hb1 : base ≤ 1)
    (hp0 : -1 ≤ p) (hp1 : p ≤ 1) :
    (p < 0 → panGains base p = (base, base * (1 + p))) ∧
    (0 ≤ p → panGains base p = (base * (1 - p), base)) ∧
    panGains base (-1) = (base, 0) ∧
    panGains base 1 = (0, base) ∧
    panGains base 0 = (base, base) ∧
    (0 ≤ (panGains base p).1 ∧ (panGains base p).1 ≤ 1) ∧
    (0 ≤ (panGains base p).2 ∧ (panGains base p).2 ≤ 1) := by
  refine ⟨fun h => by simp [panGains, h], fun h => by simp [panGains, not_lt.mpr h], ?_, ?_, ?_, ?_, ?_⟩
  · simp [panGains]
  · norm_num [panGains]
  · norm_num [panGains]
  · unfold panGains
    by_cases h : p < 0
    · simp only [h, if_true]
      exact ⟨hb0, hb1⟩
    · simp only [h, if_false]
      push_neg at h
      constructor
      · exact mul_nonneg hb0 (by linarith)
      · nlinarith
  · unfold panGains
    by_cases h : p < 0
    · simp only [h, if_true]
      constructor
      · exact mul_nonneg hb0 (by linarith)
      · nlinarith
    · simp only [h, if_false]
      exact ⟨hb0, hb1⟩

theorem pan_law_contract_witness :
    (0 ≤ (1/2 : ℚ) ∧ (1/2 : ℚ) ≤ 1 ∧ -1 ≤ (-1/2 : ℚ) ∧ (-1/2 : ℚ) ≤ 1) ∧
    panGains (1/2) (-1/2) = (1/2, 1/4) := by
  constructor
  · norm_num
  · have h := pan_law_contract (1/2) (-1/2) (by norm_num) (by norm_num) (by norm_num) (by norm_num)
    have h1 := h.1 (by norm_num)
    rw [h1]
    norm_num

/-- C2 amended: setTimer stores the supplied fadeOutDuration as given,
without clamping it to the total duration.  When fadeOutDuration >= duration
the whole countdown lies inside the fade window, and each tick applies the
multiplier remaining / (fadeOutDuration in ms) computed against the
unclamped value — so arming with a fadeOutDuration longer than the duration
is observably different from arming with it clamped to the duration. -/
theorem setTimer_unclamped (s : EngineState) (d fd now tnow : ℚ) (f : Bool) (id : String) (t : Track)
    (hd : d ≤ fd) (hel : now ≤ tnow)
    (hrem : 0 < d * 60 * 1000 - (tnow - now))
    (ht : s.tracks id = some t) (hp : t.isPlaying = true) :
    (androidSetTimer s d f fd now).timer =
      some { duration := d * 60 * 1000, fadeOut := f, fadeOutDuration := fd * 60 * 1000 } ∧
    (handleTimerTick (androidSetTimer s d true fd now) tnow).tracks id =
      some { t with
        leftGain := t.volume * ((d * 60 * 1000 - (tnow - now)) / (fd * 60 * 1000)) * s.masterVolume,
        rightGain := t.volume * ((d * 60 * 1000 - (tnow - now)) / (fd * 60 * 1000)) * s.masterVolume } := by
  constructor
  · rfl
  · have hwin : d * 60 * 1000 - (tnow - now) ≤ fd * 60 * 1000 := by nlinarith
    exact android_fade_window (androidSetTimer s d true fd now) tnow
      { duration := d * 60 * 1000, fadeOut := true, fadeOutDuration := fd * 60 * 1000 }
      id t rfl rfl hrem hwin ht hp

theorem setTimer_unclamped_witness :
    (handleTimerTick (androidSetTimer playingState 5 true 10 0) 150000).tracks "a" =
      some { playingTrack with leftGain := 1/8, rightGain := 1/8 } := by
  have h := setTimer_unclamped playingState 5 10 0 150000 true "a" playingTrack
    (by norm_num) (by norm_num) (by norm_num) (by simp [playingState]) rfl
  rw [h.2]
  norm_num [playingState, playingTrack]

/-- C2 counterexample: arming {duration 5min, fadeOutDuration 10min} on a
playing track and ticking at elapsed 2.5min applies gain 1/2 * (2.5/10) = 1/8,
while arming {duration 5min, fadeOutDuration 5min} applies 1/2 * (2.5/5) =
1/4 at the same instant — the two armings are observably different, so no
clamping to the total duration takes place. -/
theorem setTimer_clamp_counterexample :
    ((handleTimerTick (androidSetTimer playingState 5 true 10 0) 150000).tracks "a").map Track.leftGain = some (1/8) ∧
    ((handleTimerTick (androidSetTimer playingState 5 true 5 0) 150000).tracks "a").map Track.leftGain = some (1/4) ∧
    (1/8 : ℚ) ≠ 1/4 := by
  norm_num [handleTimerTick, androidSetTimer, cancelTimer, playingState, playingTrack,
    fadeTrack, handleTimerExpired]

/-- C7 amended: setVolume on a present track clamps and stores the volume
and applies clampedVolume * masterVolume to both channels, leaving the
stored pan in place but ignoring it in the applied gains: whenever the
stored pan is nonzero and the base gain is nonzero, the pair of gains
applied by setVolume differs from the pan-law output for the new volume and
the stored pan.  The pan-law gains are reinstated only by a later
setPanning call or a later fade tick is never pan-corrected either. -/
theorem setVolume_applies_pan_ignoring_gain (s : EngineState) (id : String) (v : ℚ) (t : Track)
    (ht : s.tracks id = some t) :
    androidSetVolume s id v =
      .ok { s with tracks := updateTrack s.tracks id (volumeAppliedTrack t (clamp 0 1 v) s.masterVolume) } ∧
    (volumeAppliedTrack t (clamp 0 1 v) s.masterVolume).pan = t.pan ∧
    (volumeAppliedTrack t (clamp 0 1 v) s.masterVolume).leftGain =
      (volumeAppliedTrack t (clamp 0 1 v) s.masterVolume).rightGain ∧
    (t.pan ≠ 0 → clamp 0 1 v * s.masterVolume ≠ 0 →
      ((volumeAppliedTrack t (clamp 0 1 v) s.masterVolume).leftGain,
       (volumeAppliedTrack t (clamp 0 1 v) s.masterVolume).rightGain) ≠
      panGains (clamp 0 1 v * s.masterVolume) t.pan) := by
  refine ⟨by simp [androidSetVolume, ht], rfl, rfl, ?_⟩
  intro hpan hbase
  simp only [volumeAppliedTrack, panGains]
  by_cases h : t.pan < 0
  · simp only [h, if_true, ne_eq, Prod.mk.injEq, not_and]
    intro _
    intro heq
    have : clamp 0 1 v * s.masterVolume * t.pan = 0 := by ring_nf; ring_nf at heq; linarith
    rcases mul_eq_zero.mp this with h0 | h0
    · exact hbase h0
    · exact hpan h0
  · simp only [h, if_false, ne_eq, Prod.mk.injEq, not_and]
    intro heq
    exfalso
    have : clamp 0 1 v * s.masterVolume * t.pan = 0 := by ring_nf; ring_nf at heq; linarith
    rcases mul_eq_zero.mp this with h0 | h0
    · exact hbase h0
    · exact hpan h0

theorem setVolume_applies_pan_ignoring_gain_witness :
    pannedState.tracks "a" = some pannedTrack ∧
    androidSetVolume pannedState "a" (4/5) =
      .ok { pannedState with tracks := updateTrack pannedState.tracks "a" (volumeAppliedTrack pannedTrack (clamp 0 1 (4/5)) pannedState.masterVolume) } := by
  constructor
  · simp [pannedState]
  · exact (setVolume_applies_pan_ignoring_gain pannedState "a" (4/5) pannedTrack (by simp [pannedState])).1

/-- C5 amended: play on an initialized engine starts looping playback for
exactly those tracks whose volume is strictly positive and whose player is
not already playing, setting their isPlaying flags and the transport flag;
every other track — in particular every track with volume 0 — is left
entirely untouched, so a volume-0 track whose isPlaying flag is still set
from before keeps that flag rather than being forced to false. -/
theorem play_starts_exactly_positive (s : EngineState) (h : s.isInitialized = true) :
    androidPlay s = .ok { s with tracks := fun j => (s.tracks j).map startTrack, isPlaying := true } ∧
    (∀ t : Track, 0 < t.volume → t.playerPlaying = false →
      startTrack t = { t with playerPlaying := true, isPlaying := true }) ∧
    (∀ t : Track, ¬(0 < t.volume ∧ t.playerPlaying = false) → startTrack t = t) := by
  refine ⟨by simp [androidPlay, h], fun t h1 h2 => by simp [startTrack, h1, h2],
    fun t h1 => by simp only [startTrack, if_neg h1]⟩

theorem play_starts_exactly_positive_witness :
    playingState.isInitialized = true ∧
    androidPlay playingState =
      .ok { playingState with tracks := fun j => (playingState.tracks j).map startTrack, isPlaying := true } ∧
    startTrack playingTrack = playingTrack := by
  refine ⟨rfl, (play_starts_exactly_positive playingState rfl).1, ?_⟩
  exact (play_starts_exactly_positive playingState rfl).2.2 playingTrack (by norm_num [playingTrack])

/-- C5 counterexample: starting from a fresh engine, initialize, add track
"a", play, then set its volume to 0 while it is playing; a second play call
leaves the track playing with isPlaying = true even though its volume is 0
at call time, contradicting the claim that every volume-0 track ends up
unstarted with isPlaying = false. -/
theorem play_muted_track_counterexample :
    (applyOp .opPlay playedMutedState).tracks "a" =
      some { name := "rain.ogg", audioFile := "rain.ogg", volume := 0, pan := 0,
             isPlaying := true, playerPlaying := true, leftGain := 0, rightGain := 0, position := 0 } := by
  norm_num [applyOp, playedMutedState, initialState, initEngine, addTrack, newTrack,
    androidPlay, startTrack, androidSetVolume, volumeAppliedTrack, clamp, updateTrack]

/-- C8 amended: stop stops every currently-playing track and resets it to
its start position, clears every track's isPlaying flag, cancels any active
timer and clears the transport flag; a track that is not playing at the
moment of stop — for instance one paused mid-loop — keeps its position, so
only playing tracks are rewound.  stop is idempotent: a second stop
reproduces the identical engine state. -/
theorem stop_resets_playing_and_idempotent (s : EngineState) (id : String) (t : Track)
    (ht : s.tracks id = some t) :
    androidStop (androidStop s) = androidStop s ∧
    (androidStop s).timer = none ∧
    (androidStop s).isPlaying = false ∧
    (androidStop s).tracks id = some (stopTrack t) ∧
    (stopTrack t).isPlaying = false ∧
    (stopTrack t).playerPlaying = false ∧
    (t.playerPlaying = true → (stopTrack t).position = 0) ∧
    (t.playerPlaying = false → (stopTrack t).position = t.position) := by
  refine ⟨androidStop_idem s, rfl, rfl, by simp [androidStop, cancelTimer, ht], ?_, ?_, ?_, ?_⟩
  · by_cases h : t.playerPlaying <;> simp [stopTrack, h]
  · by_cases h : t.playerPlaying <;> simp [stopTrack, h]
  · intro h
    simp [stopTrack, h]
  · intro h
    simp [stopTrack, h]

theorem stop_resets_playing_and_idempotent_witness :
    pausedMidLoopState.tracks "a" =
      some { name := "rain.ogg", audioFile := "rain.ogg", volume := 1/2, pan := 0,
             isPlaying := false, playerPlaying := false, leftGain := 1, rightGain := 1, position := 5 } ∧
    androidStop (androidStop pausedMidLoopState) = androidStop pausedMidLoopState ∧
    (androidStop pausedMidLoopState).isPlaying = false := by
  have hta : pausedMidLoopState.tracks "a" =
      some { name := "rain.ogg", audioFile := "rain.ogg", volume := 1/2, pan := 0,
             isPlaying := false, playerPlaying := false, leftGain := 1, rightGain := 1, position := 5 } := by
    norm_num [pausedMidLoopState, applyOp, initialState, initEngine, addTrack, newTrack,
      androidPlay, startTrack, androidPause, pauseTrack, advancePlayback, updateTrack]
  have h := stop_resets_playing_and_idempotent pausedMidLoopState "a" _ hta
  exact ⟨hta, h.1, h.2.2.1⟩

/-- C8 counterexample: a track paused mid-loop at position 5 is not rewound
by stop — its position is still 5 afterwards — contradicting the claim that
stop resets every track to its start position. -/
theorem stop_paused_position_counterexample :
    ((androidStop pausedMidLoopState).tracks "a").map Track.position = some 5 ∧ (5 : ℚ) ≠ 0 := by
  norm_num [androidStop, cancelTimer, stopTrack, pausedMidLoopState, applyOp, initialState,
    initEngine, addTrack, newTrack, androidPlay, startTrack, androidPause, pauseTrack,
    advancePlayback, updateTrack]

/-- One pass of the loadScene loop on a well-formed snapshot entry: the
bridge addTrack, setVolume and setPanning all succeed and their net effect
on the native state is a single point update of the track map. -/
theorem loadSceneLoop_cons (b : BridgeState) (tr : SceneTrack) (rest : List SceneTrack)
    (hb : b.isInitialized = true) (hn : b.native.isInitialized = true)
    (hv0 : 0 ≤ tr.volume) (hv1 : tr.volume ≤ 1) (hp0 : -1 ≤ tr.pan) (hp1 : tr.pan ≤ 1) :
    loadSceneLoop b (tr :: rest) =
      loadSceneLoop { b with native := { b.native with
        tracks := updateTrack b.native.tracks tr.id (sceneTrackResult tr.file tr.volume tr.pan b.native.masterVolume) } } rest := by
  have hvney : ¬(tr.volume < 0 ∨ 1 < tr.volume) := by push_neg; exact ⟨hv0, hv1⟩
  have hpney : ¬(tr.pan < -1 ∨ 1 < tr.pan) := by push_neg; exact ⟨hp0, hp1⟩
  simp only [loadSceneLoop, bridgeAddTrack, bridgeSetVolume, bridgeSetPanning, hb,
    Bool.true_eq_false, if_false, addTrack, hn, if_true, androidSetVolume, androidSetPanning,
    updateTrack_self, hvney, hpney, updateTrack_collapse, sceneTrackResult]

/-- The loadScene loop on a well-formed snapshot resolves true and its net
effect on the native state is the fold of the per-entry point updates. -/
theorem loadSceneLoop_eq (b : BridgeState) (scene : List SceneTrack)
    (hb : b.isInitialized = true) (hn : b.native.isInitialized = true)
    (hr : ∀ tr ∈ scene, 0 ≤ tr.volume ∧ tr.volume ≤ 1 ∧ -1 ≤ tr.pan ∧ tr.pan ≤ 1) :
    loadSceneLoop b scene =
      ({ b with native := { b.native with
        tracks := loadFold b.native.masterVolume b.native.tracks scene } }, true) := by
  induction scene generalizing b with
  | nil => rfl
  | cons tr rest ih =>
    obtain ⟨h1, h2, h3, h4⟩ := hr tr (List.mem_cons_self tr rest)
    rw [loadSceneLoop_cons b tr rest hb hn h1 h2 h3 h4]
    rw [ih { b with native := { b.native with
      tracks := updateTrack b.native.tracks tr.id (sceneTrackResult tr.file tr.volume tr.pan b.native.masterVolume) } }
      hb hn (fun u hu => hr u (List.mem_cons_of_mem tr hu))]
    rfl

theorem loadFold_not_mem (m : ℚ) (f : String → Option Track) (scene : List SceneTrack) (j : String)
    (hj : j ∉ scene.map SceneTrack.id) : loadFold m f scene j = f j := by
  induction scene generalizing f with
  | nil => rfl
  | cons tr rest ih =>
    simp only [List.map_cons, List.mem_cons] at hj
    push_neg at hj
    rw [loadFold]
    rw [ih _ hj.2]
    exact updateTrack_ne _ _ hj.1

theorem loadFold_mem (m : ℚ) (f : String → Option Track) (scene : List SceneTrack) (tr : SceneTrack)
    (hnd : (scene.map SceneTrack.id).Nodup) (htr : tr ∈ scene) :
    loadFold m f scene tr.id = some (sceneTrackResult tr.file tr.volume tr.pan m) := by
  induction scene generalizing f with
  | nil => cases htr
  | cons a rest ih =>
    rw [loadFold]
    rcases List.mem_cons.mp htr with heq | hmem
    · subst heq
      have hout : tr.id ∉ rest.map SceneTrack.id := by
        simp only [List.map_cons, List.nodup_cons] at hnd
        exact hnd.1
      rw [loadFold_not_mem m _ rest tr.id hout]
      exact updateTrack_self _ _ _
    · exact ih _ (by simp only [List.map_cons, List.nodup_cons] at hnd; exact hnd.2) hmem

/-- C3 amended: loadScene removes nothing — the clearing phase iterates
over getTracks(), which always resolves empty because the natives expose no
getTracks, and removeTrack could not remove anyway — so every pre-existing
track not named in the snapshot survives with unchanged state; each
snapshot track (distinct ids, in-range values, bridge and native
initialized) is added with its stored volume and pan applied and both
playing flags false, and playback is not started. -/
theorem loadScene_adds_without_clearing (b : BridgeState) (scene : List SceneTrack)
    (hb : b.isInitialized = true) (hn : b.native.isInitialized = true)
    (hnd : (scene.map SceneTrack.id).Nodup)
    (hr : ∀ tr ∈ scene, 0 ≤ tr.volume ∧ tr.volume ≤ 1 ∧ -1 ≤ tr.pan ∧ tr.pan ≤ 1) :
    (loadSceneFromObject b scene).2 = true ∧
    (loadSceneFromObject b scene).1.native.isPlaying = b.native.isPlaying ∧
    (∀ j, j ∉ scene.map SceneTrack.id →
      (loadSceneFromObject b scene).1.native.tracks j = b.native.tracks j) ∧
    (∀ tr ∈ scene,
      (loadSceneFromObject b scene).1.native.tracks tr.id =
        some (sceneTrackResult tr.file tr.volume tr.pan b.native.masterVolume) ∧
      (sceneTrackResult tr.file tr.volume tr.pan b.native.masterVolume).volume = tr.volume ∧
      (sceneTrackResult tr.file tr.volume tr.pan b.native.masterVolume).pan = tr.pan ∧
      (sceneTrackResult tr.file tr.volume tr.pan b.native.masterVolume).isPlaying = false ∧
      (sceneTrackResult tr.file tr.volume tr.pan b.native.masterVolume).playerPlaying = false) := by
  have hmain := loadSceneLoop_eq b scene hb hn hr
  unfold loadSceneFromObject
  rw [hmain]
  refine ⟨rfl, rfl, fun j hj => loadFold_not_mem _ _ _ _ hj, fun tr htr => ?_⟩
  obtain ⟨h1, h2, h3, h4⟩ := hr tr htr
  refine ⟨loadFold_mem _ _ _ _ hnd htr, ?_, ?_, rfl, rfl⟩
  · simp [sceneTrackResult, panAppliedTrack, volumeAppliedTrack, clamp_eq_self h1 h2]
  · simp [sceneTrackResult, panAppliedTrack, volumeAppliedTrack, clamp_eq_self h3 h4]

theorem loadScene_adds_without_clearing_witness :
    (loadSceneFromObject bridgeWithOldTrack sceneNew).2 = true ∧
    (loadSceneFromObject bridgeWithOldTrack sceneNew).1.native.tracks "new" =
      some (sceneTrackResult "ocean.ogg" (3/4) (-1/2) 1) := by
  have h := loadScene_adds_without_clearing bridgeWithOldTrack sceneNew rfl rfl
    (by simp [sceneNew]) (by norm_num [sceneNew])
  refine ⟨h.1, ?_⟩
  have hm := (h.2.2.2 { id := "new", file := "ocean.ogg", volume := 3/4, pan := -1/2 }
    (by simp [sceneNew])).1
  simpa [bridgeWithOldTrack] using hm

/-- C3 counterexample: loading a one-track scene into an engine already
holding the playing track "old" leaves "old" in the native track map with
its previous state — the clear phase removes nothing — so the resulting
track set does not equal the snapshot's ids, contradicting the claim. -/
theorem loadScene_counterexample :
    (loadSceneFromObject bridgeWithOldTrack sceneNew).1.native.tracks "old" = some playingTrack ∧
    "old" ∉ sceneNew.map SceneTrack.id := by
  have hne : ("old" : String) ≠ "new" := by decide
  constructor
  · norm_num [loadSceneFromObject, loadSceneLoop, sceneNew, bridgeWithOldTrack, bridgeAddTrack,
      addTrack, bridgeSetVolume, bridgeSetPanning, androidSetVolume, androidSetPanning,
      updateTrack, newTrack, volumeAppliedTrack, panAppliedTrack, clamp, panGains, playingTrack, hne]
  · simp [sceneNew]

/-- C4 amended: every operation of the native engine keeps every stored
track's volume in [0,1] and pan in [-1,1]: the native setVolume and
setPanning clamp before storing, addTrack creates in-range defaults, and no
other operation writes volume or pan.  The TypeScript bridge, however,
rejects out-of-range volume and pan inputs with INVALID_PARAMETER instead
of clamping them, so at the caller-facing surface out-of-range inputs are
rejected, not clamped (see the counterexample). -/
theorem ops_preserve_range (o : Op) (s : EngineState) (h : stateInRange s) :
    stateInRange (applyOp o s) := by
  cases o with
  | opInitialize => exact fun j u hu => h j u hu
  | opAddTrack id file =>
    simp only [applyOp]
    cases hE : addTrack s id file with
    | error e => exact h
    | ok s1 =>
      unfold addTrack at hE
      by_cases hi : s.isInitialized = true
      · simp only [hi, if_true, Except.ok.injEq] at hE
        subst hE
        exact stateInRange_update s _ id _ (trackInRange_newTrack file) rfl h
      · simp [hi] at hE
  | opSetVolume id v =>
    simp only [applyOp]
    cases hE : androidSetVolume s id v with
    | error e => exact h
    | ok s1 =>
      unfold androidSetVolume at hE
      cases hT : s.tracks id with
      | none => rw [hT] at hE; cases hE
      | some t =>
        rw [hT] at hE
        simp only [Except.ok.injEq] at hE
        subst hE
        exact stateInRange_update s _ id _ (trackInRange_volumeApplied v s.masterVolume (h id t hT)) rfl h
  | opSetPanning id p =>
    simp only [applyOp]
    cases hE : androidSetPanning s id p with
    | error e => exact h
    | ok s1 =>
      unfold androidSetPanning at hE
      cases hT : s.tracks id with
      | none => rw [hT] at hE; cases hE
      | some t =>
        rw [hT] at hE
        simp only [Except.ok.injEq] at hE
        subst hE
        exact stateInRange_update s _ id _ (trackInRange_panApplied p s.masterVolume (h id t hT)) rfl h
  | opPlay =>
    simp only [applyOp]
    cases hE : androidPlay s with
    | error e => exact h
    | ok s1 =>
      unfold androidPlay at hE
      by_cases hi : s.isInitialized = true
      · simp only [hi, if_true, Except.ok.injEq] at hE
        subst hE
        exact stateInRange_mapTracks s _ startTrack (fun t ht => trackInRange_startTrack ht) (fun j => rfl) h
      · simp [hi] at hE
  | opPause =>
    exact stateInRange_mapTracks s _ pauseTrack (fun t ht => trackInRange_pauseTrack ht) (fun j => rfl) h
  | opStop =>
    exact stateInRange_mapTracks s _ stopTrack (fun t ht => trackInRange_stopTrack ht) (fun j => rfl) h
  | opSetTimer d f fd now => exact fun j u hu => h j u hu
  | opTick now =>
    simp only [applyOp, handleTimerTick]
    cases hT : s.timer with
    | none => exact h
    | some tc =>
      simp only []
      split
      · exact stateInRange_mapTracks s _ stopTrack (fun t ht => trackInRange_stopTrack ht) (fun j => rfl) h
      · split
        · exact stateInRange_mapTracks s _ (fadeTrack s.masterVolume _) (fun t ht => trackInRange_fadeTrack _ _ ht) (fun j => rfl) h
        · exact h
  | opAdvance dt =>
    refine stateInRange_mapTracks s _ _ (fun t ht => ?_) (fun j => rfl) h
    split <;> simpa [trackInRange] using ht

theorem ops_preserve_range_witness :
    stateInRange playingState ∧ stateInRange (applyOp (.opSetVolume "a" 5) playingState) := by
  have h : stateInRange playingState := by
    intro j u hu
    simp only [playingState] at hu
    by_cases hj : j = "a"
    · rw [if_pos hj] at hu
      cases hu
      norm_num [trackInRange, playingTrack]
    · rw [if_neg hj] at hu
      cases hu
  exact ⟨h, ops_preserve_range (.opSetVolume "a" 5) playingState h⟩

/-- C4 counterexample: feeding volume 2 through the bridge setVolume on an
initialized engine holding track "a" does not clamp and store 1 — the call
is rejected with INVALID_PARAMETER by validateVolume before reaching the
native module, contradicting the claim that out-of-range inputs are
clamped, not rejected. -/
theorem setVolume_rejects_counterexample :
    bridgeSetVolume bridgePlaying "a" 2 = .error .invalidParameter ∧
    clamp 0 1 2 = 1 := by
  constructor
  · norm_num [bridgeSetVolume, bridgePlaying]
  · norm_num [clamp]

/-- C10: on an initialized bridge, setMasterVolume with a volume in [0,1]
resolves true while leaving the whole state untouched: neither native
module exposes a setMasterVolume method, so the bridge returns true without
forwarding anything, and no native operation ever writes masterVolume,
which therefore stays at its initial 1.0 forever; every track's effective
gain is unchanged. -/
theorem setMasterVolume_no_effect (b : BridgeState) (v : ℚ)
    (hb : b.isInitialized = true) (h0 : 0 ≤ v) (h1 : v ≤ 1) :
    bridgeSetMasterVolume b v = .ok (b, true) ∧
    (∀ (o : Op) (s : EngineState), (applyOp o s).masterVolume = s.masterVolume) ∧
    initialState.masterVolume = 1 := by
  refine ⟨?_, ?_, rfl⟩
  · simp only [bridgeSetMasterVolume, hb]
    rw [if_neg (by simp), if_neg (by push_neg; exact ⟨h0, h1⟩)]
  · intro o s
    cases o with
    | opInitialize => rfl
    | opAddTrack id file =>
      simp only [applyOp]
      cases hE : addTrack s id file with
      | error e => rfl
      | ok s1 =>
        unfold addTrack at hE
        by_cases hi : s.isInitialized = true
        · simp only [hi, if_true, Except.ok.injEq] at hE
          subst hE
          rfl
        · simp [hi] at hE
    | opSetVolume id v =>
      simp only [applyOp]
      cases hE : androidSetVolume s id v with
      | error e => rfl
      | ok s1 =>
        unfold androidSetVolume at hE
        cases hT : s.tracks id with
        | none => rw [hT] at hE; cases hE
        | some t =>
          rw [hT] at hE
          simp only [Except.ok.injEq] at hE
          subst hE
          rfl
    | opSetPanning id p =>
      simp only [applyOp]
      cases hE : androidSetPanning s id p with
      | error e => rfl
      | ok s1 =>
        unfold androidSetPanning at hE
        cases hT : s.tracks id with
        | none => rw [hT] at hE; cases hE
        | some t =>
          rw [hT] at hE
          simp only [Except.ok.injEq] at hE
          subst hE
          rfl
    | opPlay =>
      simp only [applyOp]
      cases hE : androidPlay s with
      | error e => rfl
      | ok s1 =>
        unfold androidPlay at hE
        by_cases hi : s.isInitialized = true
        · simp only [hi, if_true, Except.ok.injEq] at hE
          subst hE
          rfl
        · simp [hi] at hE
    | opPause => rfl
    | opStop => rfl
    | opSetTimer d f fd now => rfl
    | opTick now =>
      simp only [applyOp, handleTimerTick]
      cases hT : s.timer with
      | none => rfl
      | some tc =>
        simp only []
        split
        · rfl
        · split <;> rfl
    | opAdvance dt => rfl

theorem setMasterVolume_no_effect_witness :
    bridgePlaying.isInitialized = true ∧ (0 : ℚ) ≤ 3/4 ∧ (3/4 : ℚ) ≤ 1 ∧
    bridgeSetMasterVolume bridgePlaying (3/4) = .ok (bridgePlaying, true) := by
  refine ⟨rfl, by norm_num, by norm_num, ?_⟩
  exact (setMasterVolume_no_effect bridgePlaying (3/4) rfl (by norm_num) (by norm_num)).1

/-- C9 amended: the bridge removeTrack falls back to setVolume(trackId, 0)
because neither native module exposes a removeTrack method: for an absent
id the native setVolume rejects TRACK_NOT_FOUND and the bridge resolves
false, leaving the state unchanged; for a present track the call resolves
true but merely stores volume 0 and applies zero gains — the track stays in
the native map with both playing flags untouched, every other track is
unchanged, and no underlying resource is released on this path. -/
theorem removeTrack_fallback (b : BridgeState) (id : String) (t : Track)
    (hb : b.isInitialized = true) :
    (b.native.tracks id = none → bridgeRemoveTrack b id = (b, false)) ∧
    (b.native.tracks id = some t →
      bridgeRemoveTrack b id =
        ({ b with native := { b.native with tracks := updateTrack b.native.tracks id (volumeAppliedTrack t (clamp 0 1 0) b.native.masterVolume) } }, true) ∧
      (volumeAppliedTrack t (clamp 0 1 0) b.native.masterVolume).isPlaying = t.isPlaying ∧
      (volumeAppliedTrack t (clamp 0 1 0) b.native.masterVolume).playerPlaying = t.playerPlaying ∧
      (∀ j, j ≠ id → (bridgeRemoveTrack b id).1.native.tracks j = b.native.tracks j)) := by
  constructor
  · intro hnone
    norm_num [bridgeRemoveTrack, bridgeSetVolume, hb, androidSetVolume, hnone]
  · intro hsome
    have hcall : bridgeRemoveTrack b id =
        ({ b with native := { b.native with tracks := updateTrack b.native.tracks id (volumeAppliedTrack t (clamp 0 1 0) b.native.masterVolume) } }, true) := by
      norm_num [bridgeRemoveTrack, bridgeSetVolume, hb, androidSetVolume, hsome]
    refine ⟨hcall, rfl, rfl, fun j hj => ?_⟩
    rw [hcall]
    exact updateTrack_ne _ _ hj

theorem removeTrack_fallback_witness :
    bridgePlaying.native.tracks "a" = some playingTrack ∧
    bridgeRemoveTrack bridgePlaying "a" =
      ({ bridgePlaying with native := { bridgePlaying.native with tracks := updateTrack bridgePlaying.native.tracks "a" (volumeAppliedTrack playingTrack (clamp 0 1 0) bridgePlaying.native.masterVolume) } }, true) := by
  have hta : bridgePlaying.native.tracks "a" = some playingTrack := by
    simp [bridgePlaying, playingState]
  exact ⟨hta, ((removeTrack_fallback bridgePlaying "a" playingTrack rfl).2 hta).1⟩

/-- C9 counterexample: removing the playing track "a" resolves true, but
the track is still present in the native map afterwards and still playing
(now at zero gain) — it was neither stopped, nor removed from the track
set, nor had its resource released, contradicting the claim. -/
theorem removeTrack_counterexample :
    (bridgeRemoveTrack bridgePlaying "a").2 = true ∧
    (bridgeRemoveTrack bridgePlaying "a").1.native.tracks "a" =
      some { name := "rain.ogg", audioFile := "rain.ogg", volume := 0, pan := 0,
             isPlaying := true, playerPlaying := true, leftGain := 0, rightGain := 0, position := 0 } := by
  constructor <;>
    norm_num [bridgeRemoveTrack, bridgeSetVolume, bridgePlaying, playingState, playingTrack,
      androidSetVolume, volumeAppliedTrack, clamp, updateTrack]

/-- C1 amended: during a fade-window tick the Android engine applies to
each currently-playing track an effective gain recomputed fresh from the
stored volume as volume * (remaining/fadeOutDuration) * masterVolume, on
both channels, without mutating the stored volume; the iOS engine instead
multiplies every player node's CURRENT volume by the tick's multiplier
remaining/fadeOutDuration — compounding across ticks rather than
recomputing from the stored config volume, which it also leaves unmutated. -/
theorem fade_tick_amended
    (s : EngineState) (now : ℚ) (tc : TimerConfig) (id : String) (t : Track)
    (htimer : s.timer = some tc) (hf : tc.fadeOut = true)
    (hrem : 0 < tc.duration - (now - s.timerStartTime))
    (hwin : tc.duration - (now - s.timerStartTime) ≤ tc.fadeOutDuration)
    (ht : s.tracks id = some t) (hp : t.isPlaying = true)
    (si : IOSState) (inow : ℚ) (tci : TimerConfig) (idi : String) (ti : IOSTrack)
    (hitimer : si.timer = some tci) (hif : tci.fadeOut = true)
    (hirem : 0 < tci.duration - (inow - si.timerStartTime))
    (hiwin : tci.duration - (inow - si.timerStartTime) ≤ tci.fadeOutDuration)
    (hti : si.tracks idi = some ti) :
    (handleTimerTick s now).tracks id =
      some { t with
        leftGain := t.volume * ((tc.duration - (now - s.timerStartTime)) / tc.fadeOutDuration) * s.masterVolume,
        rightGain := t.volume * ((tc.duration - (now - s.timerStartTime)) / tc.fadeOutDuration) * s.masterVolume } ∧
    (iosHandleTimerTick si inow).tracks idi =
      some { ti with playerVolume := ti.playerVolume * ((tci.duration - (inow - si.timerStartTime)) / tci.fadeOutDuration) } :=
  ⟨android_fade_window s now tc id t htimer hf hrem hwin ht hp,
   ios_fade_window si inow tci idi ti hitimer hif hirem hiwin hti⟩

theorem fade_tick_amended_witness :
    (handleTimerTick (androidSetTimer playingState 10 true 2 0) 540000).tracks "a" =
      some { playingTrack with leftGain := 1/4, rightGain := 1/4 } ∧
    (iosHandleTimerTick (iosSetTimer iosPlayingState 10 true 2 0) 540).tracks "a" =
      some { playerVolume := 1/4, playerPan := 0, configVolume := 1/2, configPan := 0, isPlaying := true } := by
  have h := fade_tick_amended (androidSetTimer playingState 10 true 2 0) 540000
    { duration := 10 * 60 * 1000, fadeOut := true, fadeOutDuration := 2 * 60 * 1000 } "a" playingTrack
    rfl rfl (by norm_num [androidSetTimer, cancelTimer]) (by norm_num [androidSetTimer, cancelTimer])
    (by simp [androidSetTimer, cancelTimer, playingState]) rfl
    (iosSetTimer iosPlayingState 10 true 2 0) 540
    { duration := 10 * 60, fadeOut := true, fadeOutDuration := 2 * 60 } "a"
    { playerVolume := 1/2, playerPan := 0, configVolume := 1/2, configPan := 0, isPlaying := true }
    rfl rfl (by norm_num [iosSetTimer]) (by norm_num [iosSetTimer])
    (by simp [iosSetTimer, iosPlayingState])
  constructor
  · rw [h.1]
    norm_num [androidSetTimer, cancelTimer, playingState, playingTrack]
  · rw [h.2]
    norm_num [iosSetTimer, iosPlayingState]

/-- C1 counterexample: on iOS, arm a 10-minute timer with a 2-minute fade
over a track playing at stored volume 1/2 and tick at 500s and then 540s.
After the second tick the player volume is 1/2 * (100/120) * (60/120) =
5/24, while the claimed fresh recomputation storedVolume * masterVolume *
remaining/fadeOutDuration would give 1/2 * 1 * (60/120) = 1/4; the stored
config volume is still 1/2.  The engine therefore does not apply the
claimed freshly recomputed gain on every tick. -/
theorem fade_tick_counterexample :
    ((iosHandleTimerTick (iosHandleTimerTick (iosSetTimer iosPlayingState 10 true 2 0) 500) 540).tracks "a").map IOSTrack.playerVolume = some (5/24) ∧
    ((iosHandleTimerTick (iosHandleTimerTick (iosSetTimer iosPlayingState 10 true 2 0) 500) 540).tracks "a").map IOSTrack.configVolume = some (1/2) ∧
    (5/24 : ℚ) ≠ (1/2) * 1 * ((600 - 540) / 120) := by
  norm_num [iosHandleTimerTick, iosSetTimer, iosPlayingState, iosStop]

/-- C7 counterexample: on a playing track stored with pan -1 (full left,
right channel silent), setVolume "a" 0.8 applies gain 0.8 to both channels;
the pan law for the new volume and the stored pan would give (0.8, 0), so
the applied gains are a pan-ignoring value, contradicting the claim. -/
theorem setVolume_pan_law_counterexample :
    (androidSetVolume pannedState "a" (4/5)).map (fun s => (s.tracks "a").map Track.rightGain) =
      .ok (some (4/5)) ∧
    panGains ((4/5 : ℚ) * 1) (-1) = (4/5, 0) ∧
    (4/5 : ℚ) ≠ 0 := by
  refine ⟨?_, by norm_num [panGains], by norm_num⟩
  norm_num [androidSetVolume, pannedState, pannedTrack, volumeAppliedTrack, clamp, updateTrack, Except.map]

end Ambiance
